import Mathlib

/-!
Verification development for the rainfall-series-transformation pipeline.

The definitions below are a shallow embedding of the Python sources:
`agents/calculator.py`, `agents/consolidator.py`, `agents/extractors.py`
and `agents/validators.py`.  Machine floats are modelled as rationals,
numpy masked cells as `Option ℚ` (with `none` for a masked point), Python
exceptions as `Except` errors, and the filesystem touched by the
consolidation driver as an association list from path strings to file
contents.  Each section names the Python function it embeds.
-/

/-- Errors raised by the embedded pipeline.  Each constructor corresponds to
one Python exception class (or built-in exception) that the code can raise. -/
inductive DriverError where
  /-- Python `IndexError` from an out-of-range numpy access. -/
  | indexError
  /-- `ReachedCoordinatesOffsetLimitError`, raised by the spiral search. -/
  | offsetLimit
  /-- `CoordinatesNotAvailableError` from `CoordinatesValidator.get_coordinates`. -/
  | coordinatesNotAvailable
  /-- `InvalidTargetCoordinatesError` from `NetCDFExtractor._find_coordinates_indices`. -/
  | invalidTargetCoordinates
  /-- `pickle.UnpicklingError` (or similar) from `pickle.load` on corrupt bytes. -/
  | unpicklingError
  /-- Built-in `FileNotFoundError` from `open` on a missing path. -/
  | fileNotFound
  /-- `OSError` from `netCDF4.Dataset` on a file that is not a NetCDF dataset. -/
  | invalidGridFile
  /-- Built-in `ZeroDivisionError`. -/
  | zeroDivision
deriving DecidableEq, Repr

/-- Resolution of a (possibly negative) Python/numpy index against an axis of
length `n`: indices in `[0, n)` are used as-is, indices in `[-n, 0)` wrap to
`n + i`, and anything else is an `IndexError` (modelled as `none`). -/
def npResolveIndex (n : ℕ) (i : ℤ) : Option ℕ :=
  if 0 ≤ i ∧ i < (n : ℤ) then some i.toNat
  else if -(n : ℤ) ≤ i ∧ i < 0 then some (i + n).toNat
  else none

/-- Indexing a numpy 1-D array (a list of rationals) with numpy's index
semantics: negative indices wrap, out-of-range indices fail. -/
def npGet (l : List ℚ) (i : ℤ) : Option ℚ :=
  (npResolveIndex l.length i).bind fun k => l.get? k

/-- A numpy 3-D masked array `precipitation[time, lat, lon]`.  `cells` is
time-major; a cell holds `none` when the point is masked/invalid and
`some v` when it carries the numeric value `v`.  `nLat` and `nLon` record
the array shape along the two spatial axes (the time extent is
`cells.length`). -/
structure MaskedArray3 where
  nLat : ℕ
  nLon : ℕ
  cells : List (List (List (Option ℚ)))
deriving DecidableEq, Repr

/-- Embeds `PrecipitationValidator.coordinates_have_precipitation_data`:
`not np.all(np.ma.getmask(precipitation_series[:, lat_index, lon_index]))`,
i.e. true when at least one time step at the probed cell is unmasked.  The
spatial indices follow numpy semantics, so an out-of-range index is an
`IndexError`. -/
def coordinates_have_precipitation_data (pr : MaskedArray3) (latI lonI : ℤ) :
    Except DriverError Bool :=
  match npResolveIndex pr.nLat latI, npResolveIndex pr.nLon lonI with
  | some la, some lo =>
      .ok (pr.cells.any fun slice => ((slice.getD la []).getD lo none).isSome)
  | _, _ => .error .indexError

/-- Embeds `PrecipitationValidator.normalize_data_series`: the time column of
the masked array at the given (non-negative) cell indices, with every masked
point filled with `NaN` and then `NaN` converted to the numeric value `0`.
Out-of-range spatial indices raise `IndexError` as in numpy. -/
def normalize_data_series (pr : MaskedArray3) (la lo : ℕ) :
    Except DriverError (List ℚ) :=
  if la < pr.nLat ∧ lo < pr.nLon then
    .ok ((List.range pr.cells.length).map fun t =>
      (((pr.cells.getD t []).getD la []).getD lo none).getD 0)
  else .error .indexError

/-- The state held by `CoordinatesFinder` after construction: the `lat` and
`lon` axis values and the `pr` masked array of the reference NetCDF file. -/
structure CoordinatesFinder where
  latitudes : List ℚ
  longitudes : List ℚ
  precipitation : MaskedArray3
deriving DecidableEq, Repr

/-- `CoordinatesFinder.MAX_OFFSET`. -/
def MAX_OFFSET : ℕ := 15

/-- Embeds `MAX_LATITUDE_INDEX = len(self.precipitation[0, :, 0] - 1)`.
Note the placement of `- 1` in the source: it is applied *inside* `len`, to
the numpy array itself (an element-wise subtraction that leaves the length
unchanged), so the computed bound is the latitude axis length, not the last
valid index. -/
def maxLatitudeIndex (f : CoordinatesFinder) : ℤ := f.precipitation.nLat

/-- Embeds `MAX_LONGITUDE_INDEX = len(self.precipitation[0, 0, :] - 1)`;
as with `maxLatitudeIndex`, the `- 1` is element-wise inside `len`, so the
bound equals the longitude axis length. -/
def maxLongitudeIndex (f : CoordinatesFinder) : ℤ := f.precipitation.nLon

/-- Embeds `sorted(range(-offset, offset + 1), key=abs)` for `offset ≥ 1`.
Python's sort is stable, so for each magnitude `k ≥ 1` the negative offset
`-k` (which occurs first in `range`) precedes `k`, giving
`[0, -1, 1, -2, 2, …]`. -/
def spiralLimits (offset : ℕ) : List ℤ :=
  0 :: (List.range offset).flatMap fun k => [-(k + 1 : ℤ), (k + 1 : ℤ)]

/-- The `(latitude_offset, longitude_offset)` pairs visited for one value of
`offset`: the two nested `for` loops over `limits`. -/
def ringCandidates (offset : ℕ) : List (ℤ × ℤ) :=
  (spiralLimits offset).flatMap fun dla =>
    (spiralLimits offset).map fun dlo => (dla, dlo)

/-- All offset pairs visited by the `while offset <= self.MAX_OFFSET` loop,
in visit order: the rings for `offset = 1, 2, …, MAX_OFFSET`. -/
def allSpiralCandidates : List (ℤ × ℤ) :=
  (List.range MAX_OFFSET).flatMap fun i => ringCandidates (i + 1)

/-- The body of `CoordinatesFinder._search_around_coordinates`, processing the
remaining candidate offset pairs while threading `checked_coordinates`.
Each candidate index is clamped with
`min(original_index + offset, MAX_…_INDEX)`; a pair already checked is
skipped; a probe hitting valid data returns `(latitudes[i], longitudes[j])`
(numpy indexing); an invalid probe adds the pair to the checked set; and an
exhausted candidate list raises `ReachedCoordinatesOffsetLimitError`. -/
def searchLoop (f : CoordinatesFinder) (origLa origLo : ℤ) :
    List (ℤ × ℤ) → List (ℤ × ℤ) → Except DriverError (ℚ × ℚ)
  | [], _ => .error .offsetLimit
  | (dla, dlo) :: rest, checked =>
      let nla := min (origLa + dla) (maxLatitudeIndex f)
      let nlo := min (origLo + dlo) (maxLongitudeIndex f)
      if (nla, nlo) ∈ checked then
        searchLoop f origLa origLo rest checked
      else
        match coordinates_have_precipitation_data f.precipitation nla nlo with
        | .error e => .error e
        | .ok true =>
            match npGet f.latitudes nla, npGet f.longitudes nlo with
            | some la, some lo => .ok (la, lo)
            | _, _ => .error .indexError
        | .ok false => searchLoop f origLa origLo rest ((nla, nlo) :: checked)

/-- Embeds `CoordinatesFinder._search_around_coordinates`: the expanding
spiral seeded with the original index pair already in
`checked_coordinates`. -/
def search_around_coordinates (f : CoordinatesFinder) (origLa origLo : ℤ) :
    Except DriverError (ℚ × ℚ) :=
  searchLoop f origLa origLo allSpiralCandidates [(origLa, origLo)]

/-- Absolute value on the rationals, written with the boolean comparison
`Rat.blt` so that it evaluates by kernel reduction; embeds `np.abs` on a
float. -/
def ratAbs (x : ℚ) : ℚ := if x.blt 0 then -x else x

/-- Embeds `np.abs(values - target).argmin()`: the first index attaining the
minimum absolute difference (numpy's `argmin` returns the first minimiser).
numpy raises on an empty array; the default `0` is never used by callers
with a non-empty axis. -/
def argminAbsDiff (xs : List ℚ) (t : ℚ) : ℕ :=
  ((xs.enum.foldl (fun best p =>
      match best with
      | none => some (p.1, ratAbs (p.2 - t))
      | some (bi, bv) => if (ratAbs (p.2 - t)).blt bv then some (p.1, ratAbs (p.2 - t))
                         else some (bi, bv)) none).map Prod.fst).getD 0

/-- Embeds `CoordinatesFinder._search_nearest_coordinates`: argmin-nearest
index on each axis independently; return that cell's coordinates right away
when it has valid data, otherwise fall through to the spiral search. -/
def search_nearest_coordinates (f : CoordinatesFinder) (tLat tLon : ℚ) :
    Except DriverError (ℚ × ℚ) :=
  let latI : ℤ := argminAbsDiff f.latitudes tLat
  let lonI : ℤ := argminAbsDiff f.longitudes tLon
  match coordinates_have_precipitation_data f.precipitation latI lonI with
  | .error e => .error e
  | .ok true =>
      match npGet f.latitudes latI, npGet f.longitudes lonI with
      | some la, some lo => .ok (la, lo)
      | _, _ => .error .indexError
  | .ok false => search_around_coordinates f latI lonI

/-- A 1×1 reference grid whose only cell is masked at every time step, used
to exercise the spiral search at the axis boundary. -/
def finderGrid1x1 : CoordinatesFinder :=
  { latitudes := [0], longitudes := [0]
    precipitation := { nLat := 1, nLon := 1, cells := [[[none]]] } }

/-- A 2×2 reference grid with exactly one valid cell, at spatial index
(0, 0); every other cell is masked. -/
def finderGrid2x2 : CoordinatesFinder :=
  { latitudes := [0, 1], longitudes := [0, 1]
    precipitation :=
      { nLat := 2, nLon := 2, cells := [[[some 3, none], [none, none]]] } }

/-- Embeds `find_max_consecutive_run_length` from `agents/calculator.py`,
specialised to the boolean series it receives from the CDD/CWD computation:
`if not any(series): return 0` and otherwise
`series.astype(bool).groupby((series != series.shift()).cumsum()).sum().max()`.
The `cumsum` of value-change indicators groups the series into maximal runs
of equal consecutive values (`List.splitBy (· == ·)`), the per-group sum of
booleans is the count of `true` entries in the run, and the pandas `max`
over that non-empty, non-negative series is `foldl Nat.max 0`. -/
def find_max_consecutive_run_length (series : List Bool) : ℕ :=
  if series.any id then
    ((series.splitBy (· == ·)).map fun g => g.countP id).foldl Nat.max 0
  else 0

/-- A calendar date as seen by the indices calculator, which reads only the
`year` and `month` attributes of each timestamp (via `df["date"].dt.year`
and `df["date"].dt.month` in `IndicesCalculator._set_auxiliary_columns`). -/
structure PyDate where
  year : ℤ
  month : ℤ
deriving DecidableEq, Repr

/-- The wet-day precipitation values of one year:
`self.df[self.df["wet_days"]].groupby("year")["precipitation"]` restricted to
the group `y`, where `wet_days` is `precipitation >= 1`
(`IndicesCalculator._set_auxiliary_columns`). -/
def wet_day_values (series : List (PyDate × ℚ)) (y : ℤ) : List ℚ :=
  ((series.filter fun r => !(r.2.blt 1)).filter fun r => r.1.year == y).map (·.2)

/-- Embeds the SDII computation of `IndicesCalculator.compute_climate_indices`
for the year `y`: the pandas `mean` of that year's wet-day precipitation,
i.e. sum divided by count. -/
def sdii (series : List (PyDate × ℚ)) (y : ℤ) : ℚ :=
  (wet_day_values series y).sum / ((wet_day_values series y).length : ℚ)

/-- Embeds the PRCPTOT computation of
`IndicesCalculator.compute_climate_indices` for the year `y`: the pandas
`sum` of that year's wet-day precipitation. -/
def prcptot (series : List (PyDate × ℚ)) (y : ℤ) : ℚ :=
  (wet_day_values series y).sum

/-- A Python `datetime` as produced by the extractor.  Every datetime built
by `NetCDFExtractor` is `strptime(reference) + timedelta(days=offset)`, so
it is represented by the reference timestamp string (trimmed from the units
string) together with the accumulated day offset. -/
structure PyDatetime where
  stamp : String
  offsetDays : ℚ
deriving DecidableEq, Repr

/-- Embeds `datetime + timedelta(days=t)`. -/
def addTimedeltaDays (d : PyDatetime) (t : ℚ) : PyDatetime :=
  { d with offsetDays := d.offsetDays + t }

/-- The variables of one NetCDF file as loaded by
`NetCDFExtractor._get_dataset_variables`: the `time` axis (units string and
offset values), the `lat` and `lon` axis values, and the `pr` masked
precipitation array. -/
structure NetCDFVariables where
  timeUnits : String
  timeValues : List ℚ
  latValues : List ℚ
  lonValues : List ℚ
  pr : MaskedArray3
deriving DecidableEq, Repr

/-- Embeds `NetCDFExtractor._parse_reference_date`:
`datetime.strptime(units.split("since")[-1].strip(), "%Y-%m-%dT%H:%M:%S")`.
The parsed datetime is represented by the trimmed timestamp substring with a
zero day offset. -/
def parse_reference_date (units : String) : PyDatetime :=
  { stamp := ((units.splitOn "since").getLastD "").trim, offsetDays := 0 }

/-- Embeds `NetCDFExtractor._find_coordinates_indices`:
`np.argwhere(values == target)[0][0]` on each axis is the first index whose
value equals the target exactly; a missing value on either axis is an
`IndexError` re-raised as `InvalidTargetCoordinatesError`. -/
def find_coordinates_indices (vars : NetCDFVariables) (tLat tLon : ℚ) :
    Except DriverError (ℕ × ℕ) :=
  match vars.latValues.findIdx? (· == tLat), vars.lonValues.findIdx? (· == tLon) with
  | some la, some lo => .ok (la, lo)
  | _, _ => .error .invalidTargetCoordinates

/-- Embeds `NetCDFExtractor._relative_to_absolute_date`: build
`dates = [reference_date + timedelta(days=float(t)) for t in time.values]`
and pair `dates[index]` with each data value by index.  Looking up
`dates[index]` raises `IndexError` when the data series is longer than the
time axis. -/
def relative_to_absolute_date (vars : NetCDFVariables) (data : List ℚ) :
    Except DriverError (List (PyDatetime × ℚ)) :=
  let ref := parse_reference_date vars.timeUnits
  let dates := vars.timeValues.map (addTimedeltaDays ref)
  if data.length ≤ dates.length then .ok (dates.zip data)
  else .error .indexError

/-- Embeds `NetCDFExtractor.extract_precipitation`: exact-match coordinate
lookup, normalization of the masked time column at that cell, then the
relative-to-absolute date conversion. -/
def extract_precipitation (vars : NetCDFVariables) (tLat tLon : ℚ) :
    Except DriverError (List (PyDatetime × ℚ)) := do
  let (la, lo) ← find_coordinates_indices vars tLat tLon
  let data ← normalize_data_series vars.pr la lo
  relative_to_absolute_date vars data

/-- The per-combination metadata dict built in
`Consolidator.generate_precipitation_dataset`
(`{"city": …, "model": …, "scenario": …, "latitude": …, "longitude": …}`). -/
structure MetaData where
  city : String
  model : String
  scenario : String
  latitude : ℚ
  longitude : ℚ
deriving DecidableEq, Repr

/-- One buffered entry of a recovery snapshot:
`{"data": data_series, "metadata": metadata}`. -/
structure CityRecord where
  data : List (PyDatetime × ℚ)
  metadata : MetaData
deriving DecidableEq, Repr

/-- `RecoveryData`: the insertion-ordered dict from city name to buffered
series and metadata (`globals/types.py`). -/
abbrev RecoveryData : Type := List (String × CityRecord)

/-- Contents of one file in the modelled filesystem: a NetCDF dataset, a
pickled recovery snapshot (pickle round-trips the stored value exactly), or
bytes that cannot be deserialized. -/
inductive FileContent where
  | netcdf (vars : NetCDFVariables)
  | recovery (rd : RecoveryData)
  | corrupt
deriving DecidableEq, Repr

/-- The filesystem seen by the consolidation driver: a finite map from path
strings to file contents, as an association list (later entries shadowed by
`fsWrite`). -/
abbrev FS : Type := List (String × FileContent)

/-- Reading the content at a path, `none` when no file exists there. -/
def fsLookup (fs : FS) (p : String) : Option FileContent :=
  ((fs : List (String × FileContent)).find? fun e => e.1 == p).map (·.2)

/-- Deleting the file at a path. -/
def fsRemove (fs : FS) (p : String) : FS :=
  (fs : List (String × FileContent)).filter fun e => !(e.1 == p)

/-- Creating or overwriting the file at a path (`open(path, "wb")` + write). -/
def fsWrite (fs : FS) (p : String) (c : FileContent) : FS :=
  (p, c) :: fsRemove fs p

/-- Embeds `Path.replace(src → dst)`: atomically rename `src` over `dst`.
A missing source would raise; the driver only renames a file it just wrote,
so that branch is never reached and is modelled as a no-op. -/
def fsReplace (fs : FS) (src dst : String) : FS :=
  match fsLookup fs src with
  | some c => fsWrite (fsRemove fs src) dst c
  | none => fs

/-- `TEMP_FILE_NAME`.  Modelled from the spec: the constant lives in
`globals/constants.py`, which is not among the sources; only its role (the
scratch name the snapshot is first written to, inside the temporary
directory) matters. -/
def TEMP_FILE_NAME : String := "dirty.tmp"

/-- Path of the temporary scratch file used by `_dump_recovery_data`
(`Path(self.temp_dir, TEMP_FILE_NAME)` with `temp_dir = "temp"`). -/
def dirtyFilePath : String := "temp/" ++ TEMP_FILE_NAME

/-- Path of the recovery snapshot of one (model, scenario) pair.  Modelled
from the spec: `RECOVERY_FILENAME_FORMAT` lives in the missing
`globals/constants.py`; per §6 of the design there is one snapshot file per
(model, scenario), parameterized by both labels. -/
def recoveryFilePath (model scenario : String) : String :=
  "temp/recovery_" ++ model ++ "_" ++ scenario ++ ".bin"

/-- Path of the grid file of one (model, scenario) pair.  Modelled from the
spec: `INPUT_FILENAME_FORMAT` lives in the missing `globals/constants.py`;
per §6 grid files are named by a fixed template parameterized by model and
scenario. -/
def gridFilePath (model scenario : String) : String :=
  "source/" ++ scenario ++ "_" ++ model ++ ".nc"

/-- Embeds `Consolidator._dump_recovery_data`: return immediately when the
buffered dict is empty (`if not recovery_data: return`), otherwise write the
pickled buffer to the scratch path and rename it over the final snapshot
path. -/
def dump_recovery_data (fs : FS) (model scenario : String) (rd : RecoveryData) :
    FS :=
  if (rd : List (String × CityRecord)).isEmpty then fs
  else
    fsReplace (fsWrite fs dirtyFilePath (.recovery rd))
      dirtyFilePath (recoveryFilePath model scenario)

/-- Embeds `Consolidator._validate_recovery_path`: the snapshot path when a
file exists there (`recovery_file.is_file()`), else `none`. -/
def validate_recovery_path (fs : FS) (model scenario : String) : Option String :=
  if (fsLookup fs (recoveryFilePath model scenario)).isSome then
    some (recoveryFilePath model scenario)
  else none

/-- Embeds `Consolidator._recover_data_from_file`: `pickle.load` on the file
at the path.  A well-formed snapshot deserializes to the stored map; corrupt
bytes raise an unpickling error and a missing file raises
`FileNotFoundError` — neither is caught here or by any caller. -/
def recover_data_from_file (fs : FS) (p : String) : Except DriverError RecoveryData :=
  match fsLookup fs p with
  | some (.recovery rd) => .ok rd
  | some _ => .error .unpicklingError
  | none => .error .fileNotFound

/-- The `details` dict of one city from the resolved-coordinates file, as
read by `CoordinatesValidator.get_coordinates`:
`details.get("nearest", {}).get("lat")` and `…​.get("lon")`, each `none` when
the key path is absent. -/
structure CityDetails where
  nearestLat : Option ℚ
  nearestLon : Option ℚ
deriving DecidableEq, Repr

/-- Embeds `CoordinatesValidator.get_coordinates`:
`if not all(coordinates): raise CoordinatesNotAvailableError(details)`.
Python's `all` tests truthiness, so a missing value (`None`) and the float
`0.0` are both falsy. -/
def get_coordinates (details : CityDetails) : Except DriverError (ℚ × ℚ) :=
  match details.nearestLat, details.nearestLon with
  | some la, some lo =>
      if la == 0 || lo == 0 then .error .coordinatesNotAvailable
      else .ok (la, lo)
  | _, _ => .error .coordinatesNotAvailable

/-- The counters of `Consolidator.state`.  The counts are integers and the
two rates are the floats computed by `_set_final_state` (0 until then). -/
structure PipelineState where
  total : ℤ
  processed : ℤ
  error : ℤ
  skipped : ℤ
  success : ℤ
  success_rate : ℚ
  process_rate : ℚ
deriving DecidableEq, Repr

/-- Embeds `estimate_combinations` from `agents/calculator.py`:
`reduce(lambda x, y: x*y, [len(arg) for arg in args])`, the product of the
argument lengths (the driver always passes three collections, so the list
is non-empty and `reduce` equals this fold from 1). -/
def estimate_combinations (lengths : List ℕ) : ℕ :=
  lengths.foldl (· * ·) 1

/-- Embeds `Consolidator._count_error`: one more processed, one more error. -/
def count_error (st : PipelineState) : PipelineState :=
  { st with processed := st.processed + 1, error := st.error + 1 }

/-- Embeds `Consolidator._count_processed`: one more processed. -/
def count_processed (st : PipelineState) : PipelineState :=
  { st with processed := st.processed + 1 }

/-- Embeds `Consolidator._set_final_state`, statement by statement:
`skipped = total - processed`, `success = processed - error`,
`process_rate = 100*processed/total`, and
`success_rate = 100*success/(total - skipped)`.  Each Python division
raises `ZeroDivisionError` when its denominator is zero, modelled as an
error result at the same program point. -/
def set_final_state (st : PipelineState) : Except DriverError PipelineState :=
  let a := { st with skipped := st.total - st.processed }
  let b := { a with success := a.processed - a.error }
  if b.total = 0 then .error .zeroDivision
  else
    let c := { b with process_rate := ((100 * b.processed : ℤ) : ℚ) / ((b.total : ℤ) : ℚ) }
    if c.total - c.skipped = 0 then .error .zeroDivision
    else .ok { c with
      success_rate := ((100 * c.success : ℤ) : ℚ) / (((c.total - c.skipped) : ℤ) : ℚ) }

/-- The arguments of `Consolidator.__init__` that the driver loop reads: the
cities dict (name → details), the scenario keys and the model names.  The
CSV exporter collaborator is `None` here, as in
`Consolidator(..., csv_generator=None)`. -/
structure Consolidator where
  cities : List (String × CityDetails)
  scenarios : List String
  models : List String
deriving DecidableEq, Repr

/-- The state dict built in `Consolidator.__init__`: the estimated total and
zeroed counters and rates. -/
def initialPipelineState (c : Consolidator) : PipelineState :=
  { total := (estimate_combinations
      [c.models.length, c.scenarios.length, c.cities.length] : ℤ)
    processed := 0, error := 0, skipped := 0, success := 0
    success_rate := 0, process_rate := 0 }

/-- One item yielded by the generator: the data series and its metadata. -/
abbrev YieldItem : Type := List (PyDatetime × ℚ) × MetaData

/-- The recovery-replay loop at the top of the per-pair body of
`generate_precipitation_dataset`: for each snapshot entry whose city is
still pending, count it as processed, drop it from the pending dict and
yield its stored series and metadata. -/
def recoveryReplay (cities : List (String × CityDetails)) (st : PipelineState)
    (rd : RecoveryData) :
    List YieldItem × List (String × CityDetails) × PipelineState :=
  (rd : List (String × CityRecord)).foldl (fun acc entry =>
    if acc.2.1.any fun c => c.1 == entry.1 then
      (acc.1 ++ [((entry.2.data, entry.2.metadata) : YieldItem)],
        acc.2.1.filter fun c => !(c.1 == entry.1),
        count_processed acc.2.2)
    else acc) ([], cities, st)

/-- The per-city body of the extraction loop in
`generate_precipitation_dataset`: look up the nearest coordinates (an
uncaught `CoordinatesNotAvailableError` aborts the run), extract the series
(an uncaught extractor error aborts the run), then either count an error for
an empty series or count a success, buffer the entry for recovery and yield
it. -/
def cityStep (model scenario : String) (vars : NetCDFVariables)
    (acc : List YieldItem × PipelineState × RecoveryData)
    (entry : String × CityDetails) :
    Except DriverError (List YieldItem × PipelineState × RecoveryData) := do
  let (la, lo) ← get_coordinates entry.2
  let ds ← extract_precipitation vars la lo
  if ds.isEmpty then
    .ok (acc.1, count_error acc.2.1, acc.2.2)
  else
    let md : MetaData :=
      { city := entry.1, model := model, scenario := scenario
        latitude := la, longitude := lo }
    .ok (acc.1 ++ [((ds, md) : YieldItem)], count_processed acc.2.1,
      acc.2.2 ++ ([(entry.1, ⟨ds, md⟩)] : RecoveryData))

/-- The whole extraction loop over the cities still to process for one
(model, scenario) pair. -/
def extractionLoop (model scenario : String) (vars : NetCDFVariables)
    (st : PipelineState) (cities : List (String × CityDetails)) :
    Except DriverError (List YieldItem × PipelineState × RecoveryData) :=
  cities.foldlM (cityStep model scenario vars) ([], st, ([] : RecoveryData))

/-- The accumulator of the driver loop: everything yielded so far, the
mutable counters, and the filesystem. -/
structure RunAcc where
  yields : List YieldItem
  state : PipelineState
  fs : FS
deriving DecidableEq

/-- The body of the two nested `for model / for scenario` loops of
`Consolidator.generate_precipitation_dataset` for one (model, scenario)
pair: replay the recovery snapshot when one exists (a corrupt snapshot
propagates its unpickling error), `continue` when nothing remains to
process, skip the pair when the grid file is absent
(`InvalidSourceFileError` is the only error caught), otherwise run the
extraction loop and persist the buffered results. -/
def processPair (c : Consolidator) (acc : RunAcc) (model scenario : String) :
    Except DriverError RunAcc := do
  let replayed ←
    match validate_recovery_path acc.fs model scenario with
    | some p => do
        let rd ← recover_data_from_file acc.fs p
        pure (recoveryReplay c.cities acc.state rd)
    | none => pure (([] : List YieldItem), c.cities, acc.state)
  let (ys, remaining, st) := replayed
  if remaining.isEmpty then
    .ok { yields := acc.yields ++ ys, state := st, fs := acc.fs }
  else
    match fsLookup acc.fs (gridFilePath model scenario) with
    | none => .ok { yields := acc.yields ++ ys, state := st, fs := acc.fs }
    | some (.netcdf vars) => do
        let (ys2, st2, rec) ← extractionLoop model scenario vars st remaining
        .ok { yields := acc.yields ++ ys ++ ys2, state := st2
              fs := dump_recovery_data acc.fs model scenario rec }
    | some _ => .error .invalidGridFile

/-- Modelled from the spec (§4.4 steps 4–6 and §7): the full-extraction
path for one (model, scenario) pair, i.e. what the driver does when no
recovery is available — extract every city of the pair from the grid file
(skipping the pair when the file is absent) and persist the buffer.  Used
as the comparison point for the fallback behaviour of `processPair`. -/
def processPairFullExtraction (c : Consolidator) (acc : RunAcc)
    (model scenario : String) : Except DriverError RunAcc :=
  if c.cities.isEmpty then
    .ok { yields := acc.yields, state := acc.state, fs := acc.fs }
  else
    match fsLookup acc.fs (gridFilePath model scenario) with
    | none => .ok { yields := acc.yields, state := acc.state, fs := acc.fs }
    | some (.netcdf vars) => do
        let (ys2, st2, rec) ← extractionLoop model scenario vars acc.state c.cities
        .ok { yields := acc.yields ++ ys2, state := st2
              fs := dump_recovery_data acc.fs model scenario rec }
    | some _ => .error .invalidGridFile

/-- Embeds `Consolidator.generate_precipitation_dataset`, run to completion
(the generator fully exhausted, as `generate_all_precipitation_series`
does): iterate every model and scenario, then set the final state.  The
result is everything the generator yielded, the final counters, and the
filesystem after all snapshot dumps; any uncaught exception aborts the run
as an error. -/
def generate_precipitation_dataset (c : Consolidator) (fs : FS) :
    Except DriverError (List YieldItem × PipelineState × FS) := do
  let init : RunAcc := { yields := [], state := initialPipelineState c, fs := fs }
  let acc ← c.models.foldlM (fun a model =>
      c.scenarios.foldlM (fun a scenario => processPair c a model scenario) a) init
  let st ← set_final_state acc.state
  .ok (acc.yields, st, acc.fs)

/-- A one-city, one-model, one-scenario driver configuration used as a
concrete run input. -/
def consolidatorW : Consolidator :=
  { cities := [("X", { nearestLat := some 1, nearestLon := some 2 })]
    scenarios := ["s"], models := ["m"] }

/-- The grid file contents for `consolidatorW`: a 1×1 spatial grid with two
time steps whose second point is masked. -/
def varsW : NetCDFVariables :=
  { timeUnits := "days since 2000-01-01T00:00:00"
    timeValues := [0, 1]
    latValues := [1], lonValues := [2]
    pr := { nLat := 1, nLon := 1, cells := [[[some 5]], [[none]]] } }

/-- A filesystem holding exactly the grid file of the pair ("m", "s"). -/
def fsW : FS := [(gridFilePath "m" "s", .netcdf varsW)]

/-- The series extracted from `varsW` at its only cell: the masked second
point carries the value 0. -/
def outW : List (PyDatetime × ℚ) :=
  [({ stamp := "2000-01-01T00:00:00", offsetDays := 0 }, 5),
   ({ stamp := "2000-01-01T00:00:00", offsetDays := 1 }, 0)]

/-- The items yielded by a completed run of `consolidatorW` over `fsW`. -/
def yieldsW : List YieldItem :=
  [(outW, { city := "X", model := "m", scenario := "s", latitude := 1, longitude := 2 })]

/-- The final pipeline state of that run: 1 of 1 combinations processed. -/
def stateW : PipelineState :=
  { total := 1, processed := 1, error := 0, skipped := 0, success := 1
    success_rate := 100, process_rate := 100 }

/-- The filesystem after that run: the snapshot of the pair has been written
next to the untouched grid file. -/
def fsAfterW : FS :=
  [(recoveryFilePath "m" "s",
    .recovery [("X",
      { data := outW
        metadata := { city := "X", model := "m", scenario := "s"
                      latitude := 1, longitude := 2 } })]),
   (gridFilePath "m" "s", .netcdf varsW)]

/-- A filesystem whose only recovery file for the pair ("m", "s") holds
bytes that cannot be unpickled. -/
def fsCorruptW : FS :=
  [(recoveryFilePath "m" "s", .corrupt), (gridFilePath "m" "s", .netcdf varsW)]

/-- The initial driver accumulator over `fsW`. -/
def accW : RunAcc :=
  { yields := [], state := initialPipelineState consolidatorW, fs := fsW }

/-- A city details dict in which both nearest coordinates are present but
the latitude is 0.0 (a real coordinate: the equator crosses Brazil). -/
def detailsC4 : CityDetails := { nearestLat := some 0, nearestLon := some (-51.375) }

/-- A two-day series for the year 2000 with exactly one wet day. -/
def seriesC7 : List (PyDate × ℚ) :=
  [({ year := 2000, month := 1 }, 7), ({ year := 2000, month := 2 }, 0)]

/-- A snapshot buffer with one recovered city, used for the round-trip
witness. -/
def rdW : RecoveryData :=
  [("X",
    { data := [({ stamp := "2000-01-01T00:00:00", offsetDays := 0 }, 5)]
      metadata := { city := "X", model := "m", scenario := "s"
                    latitude := 1, longitude := 2 } })]

/-- Inversion of a successful `Except` bind: both stages succeeded. -/
theorem exceptBind_ok {ε α β : Type} {x : Except ε α} {f : α → Except ε β} {b : β}
    (h : x >>= f = .ok b) : ∃ a, x = .ok a ∧ f a = .ok b := by
  cases x with
  | ok a => exact ⟨a, rfl, h⟩
  | error e => exact absurd h (by simp [Bind.bind, Except.bind])

/-- When `_set_final_state` completes without a `ZeroDivisionError`, the
final counters satisfy the two balance identities. -/
theorem set_final_state_ok {st st' : PipelineState}
    (h : set_final_state st = .ok st') :
    st'.processed + st'.skipped = st'.total ∧
    st'.success + st'.error = st'.processed := by
  unfold set_final_state at h
  dsimp only at h
  split at h
  · exact absurd h (by simp)
  · split at h
    · exact absurd h (by simp)
    · cases h
      constructor <;> simp

/-- C1, amended part: for every run of the consolidation driver that
completes (the generator exhausted and the final state set without raising),
the final counters satisfy `processed + skipped = total` and
`success + error = processed`. -/
theorem final_state_counter_invariants (c : Consolidator) (fs : FS)
    (ys : List YieldItem) (st : PipelineState) (fs2 : FS)
    (h : generate_precipitation_dataset c fs = .ok (ys, st, fs2)) :
    st.processed + st.skipped = st.total ∧
    st.success + st.error = st.processed := by
  unfold generate_precipitation_dataset at h
  obtain ⟨acc, hacc, h⟩ := exceptBind_ok h
  obtain ⟨stf, hst, h⟩ := exceptBind_ok h
  simp only [Except.ok.injEq, Prod.mk.injEq] at h
  obtain ⟨h1, h2, h3⟩ := h
  subst h2
  exact set_final_state_ok hst

/-- C1, witness: a concrete one-combination run that completes successfully
and satisfies the counter identities. -/
theorem final_state_counter_invariants_witness :
    stateW.processed + stateW.skipped = stateW.total ∧
    stateW.success + stateW.error = stateW.processed :=
  final_state_counter_invariants consolidatorW fsW yieldsW stateW fsAfterW
    (by with_unfolding_all rfl)

/-- C1, counterexample to the claim as stated: a run with an estimated total
of 1 whose only grid file is missing processes zero items, and the
`success_rate` computation then divides by `total - skipped = processed = 0`,
so the driver aborts with `ZeroDivisionError` — the rate computation is not
guarded against division by zero. -/
theorem final_state_zero_processed_divides_by_zero :
    generate_precipitation_dataset consolidatorW [] = .error .zeroDivision := by
  with_unfolding_all rfl

/-- C2, amended part: when no recovery file exists for a (model, scenario)
pair, the driver's per-pair processing is exactly the full-extraction path
over all cities of the pair — absence is "no recovery available" and is
never fatal. -/
theorem absent_recovery_falls_back_to_full_extraction (c : Consolidator)
    (acc : RunAcc) (model scenario : String)
    (h : validate_recovery_path acc.fs model scenario = none) :
    processPair c acc model scenario =
      processPairFullExtraction c acc model scenario := by
  unfold processPair processPairFullExtraction
  rw [h]
  simp only [pure_bind, List.append_nil]

/-- C2, witness: a concrete filesystem with no recovery file, on which the
per-pair processing equals the full-extraction path. -/
theorem absent_recovery_falls_back_to_full_extraction_witness :
    validate_recovery_path accW.fs "m" "s" = none ∧
    processPair consolidatorW accW "m" "s" =
      processPairFullExtraction consolidatorW accW "m" "s" :=
  ⟨by with_unfolding_all rfl,
   absent_recovery_falls_back_to_full_extraction consolidatorW accW "m" "s"
     (by with_unfolding_all rfl)⟩

/-- C2, counterexample to the claim as stated: a recovery file whose
contents cannot be deserialized is not treated as "no recovery available" —
`pickle.load` raises through `_recover_data_from_file` with no handler
anywhere on the path, and the whole run aborts. -/
theorem corrupt_recovery_file_aborts_run :
    generate_precipitation_dataset consolidatorW fsCorruptW
      = .error .unpicklingError := by
  with_unfolding_all rfl

/-- C3: the claim is false on the code — the clamp bound is the axis
*length*, not the last valid index.  On a grid whose longitude axis has
length 1 (last valid index 0), the candidate index computed for original
index 0 and offset +1 is `min(0 + 1, MAX_LONGITUDE_INDEX) = 1`, which
exceeds the last valid index, and the spiral search consequently probes the
array out of range and raises `IndexError`. -/
theorem spiral_clamp_bound_is_axis_length :
    min ((0 : ℤ) + 1) (maxLongitudeIndex finderGrid1x1) = 1 ∧
    ((finderGrid1x1.longitudes.length : ℤ) - 1 = 0) ∧
    search_around_coordinates finderGrid1x1 0 0 = .error .indexError :=
  ⟨by with_unfolding_all rfl, by with_unfolding_all rfl,
   by with_unfolding_all rfl⟩

/-- C4: the claim is false on the code — for a city dict in which both
nearest coordinates are present but the latitude is the (perfectly valid)
value 0.0, `all((latitude, longitude))` is falsy, so
`CoordinatesNotAvailableError` is raised and extraction is never attempted
for that city. -/
theorem present_zero_coordinate_raises :
    detailsC4.nearestLat.isSome = true ∧ detailsC4.nearestLon.isSome = true ∧
    get_coordinates detailsC4 = .error .coordinatesNotAvailable ∧
    cityStep "m" "s" varsW ([], initialPipelineState consolidatorW, [])
        ("Y", detailsC4)
      = .error .coordinatesNotAvailable :=
  ⟨by with_unfolding_all rfl, by with_unfolding_all rfl,
   by with_unfolding_all rfl, by with_unfolding_all rfl⟩

/-- C5: the claim is false on the code — on a 2×2 grid whose only valid
cell is at index (0, 0), resolving a target whose argmin-nearest cell is the
masked corner (1, 1) neither returns a valid cell nor fails with the
offset-limit error: because the clamp bound is the axis length, the spiral
probes candidate index 2 (== the length) and raises `IndexError` before
ever reaching the valid cell. -/
theorem resolver_raises_index_error_despite_valid_cell :
    coordinates_have_precipitation_data finderGrid2x2.precipitation 0 0
      = .ok true ∧
    search_nearest_coordinates finderGrid2x2 1 1 = .error .indexError :=
  ⟨by with_unfolding_all rfl, by with_unfolding_all rfl⟩

/-- An upper bound for a `foldl Nat.max`. -/
theorem foldl_max_le (l : List ℕ) (a b : ℕ) (ha : a ≤ b)
    (h : ∀ x ∈ l, x ≤ b) : l.foldl Nat.max a ≤ b := by
  induction l generalizing a with
  | nil => simpa using ha
  | cons x xs ih =>
      simp only [List.foldl_cons]
      exact ih _ (Nat.max_le.mpr ⟨ha, h x (by simp)⟩) fun y hy => h y (by simp [hy])

/-- A `foldl Nat.max` is at least its initial value. -/
theorem le_foldl_max_init (l : List ℕ) (a : ℕ) : a ≤ l.foldl Nat.max a := by
  induction l generalizing a with
  | nil => simp
  | cons x xs ih =>
      simp only [List.foldl_cons]
      exact le_trans (Nat.le_max_left a x) (ih _)

/-- A `foldl Nat.max` dominates every list element. -/
theorem le_foldl_max (l : List ℕ) (a x : ℕ) (hx : x ∈ l) :
    x ≤ l.foldl Nat.max a := by
  induction l generalizing a with
  | nil => cases hx
  | cons y ys ih =>
      simp only [List.foldl_cons]
      rcases List.mem_cons.mp hx with h | h
      · subst h
        exact le_trans (Nat.le_max_right a x) (le_foldl_max_init ys _)
      · exact ih _ h

/-- Each run produced by `splitBy` is no longer than the whole series. -/
theorem length_le_of_mem_splitBy {s g : List Bool}
    (hg : g ∈ s.splitBy (· == ·)) : g.length ≤ s.length := by
  conv_rhs => rw [← List.flatten_splitBy (· == ·) s, List.length_flatten]
  exact List.single_le_sum (by simp) _ (List.mem_map_of_mem _ hg)

/-- C6: for every boolean series the maximum-consecutive-run-length function
returns at most the series length, and returns 0 exactly when the series
has no truthy element (in particular it returns 0 on the empty series). -/
theorem run_length_le_length_and_zero_iff_no_truthy (s : List Bool) :
    find_max_consecutive_run_length s ≤ s.length ∧
    (find_max_consecutive_run_length s = 0 ↔ ∀ b ∈ s, b = false) := by
  unfold find_max_consecutive_run_length
  cases hany : s.any id with
  | false =>
      simp only [Bool.false_eq_true, if_false]
      have hall : ∀ b ∈ s, b = false := by
        intro b hb
        simpa using List.any_eq_false.mp hany b hb
      exact ⟨Nat.zero_le _, iff_of_true trivial hall⟩
  | true =>
      simp only [if_true]
      obtain ⟨b, hb, hbt⟩ := List.any_eq_true.mp hany
      have hbtrue : b = true := by simpa using hbt
      subst hbtrue
      constructor
      · refine foldl_max_le _ _ _ (Nat.zero_le _) fun x hx => ?_
        obtain ⟨g, hg, rfl⟩ := List.mem_map.mp hx
        exact le_trans (List.countP_le_length _) (length_le_of_mem_splitBy hg)
      · constructor
        · intro h0
          exfalso
          have hb' : (true : Bool) ∈ (s.splitBy (· == ·)).flatten := by
            rw [List.flatten_splitBy]; exact hb
          obtain ⟨g, hg, hbg⟩ := List.mem_flatten.mp hb'
          have h1 : 0 < g.countP id := List.countP_pos_iff.mpr ⟨true, hbg, rfl⟩
          have h2 : g.countP id ≤
              ((s.splitBy (· == ·)).map fun g => g.countP id).foldl Nat.max 0 :=
            le_foldl_max _ 0 _ (List.mem_map_of_mem _ hg)
          omega
        · intro hall
          exact absurd (hall true hb) (by simp)

/-- C7: for every series and every year with at least one wet day, the SDII
of that year (the mean over the year's wet days) times the number of wet
days equals the PRCPTOT of that year (the sum over the same wet days) —
exactly, in rational arithmetic. -/
theorem sdii_mul_wet_count_eq_prcptot (series : List (PyDate × ℚ)) (y : ℤ)
    (h : 1 ≤ (wet_day_values series y).length) :
    sdii series y * ((wet_day_values series y).length : ℚ)
      = prcptot series y := by
  unfold sdii prcptot
  have hne : ((wet_day_values series y).length : ℚ) ≠ 0 := by
    exact_mod_cast Nat.one_le_iff_ne_zero.mp h
  exact div_mul_cancel₀ _ hne

/-- C7, witness: a two-day series whose year 2000 has exactly one wet day. -/
theorem sdii_mul_wet_count_eq_prcptot_witness :
    1 ≤ (wet_day_values seriesC7 2000).length ∧
    sdii seriesC7 2000 * ((wet_day_values seriesC7 2000).length : ℚ)
      = prcptot seriesC7 2000 :=
  ⟨by with_unfolding_all rfl,
   sdii_mul_wet_count_eq_prcptot seriesC7 2000 (by with_unfolding_all rfl)⟩

/-- Indexing a zip below both lengths pairs the two elements. -/
theorem getElem?_zip_of_lt {α β : Type} {xs : List α} {ys : List β} {i : ℕ}
    (hx : i < xs.length) (hy : i < ys.length) :
    (xs.zip ys)[i]? = some (xs[i], ys[i]) := by
  induction xs generalizing ys i with
  | nil => simp at hx
  | cons x xs ih =>
      cases ys with
      | nil => simp at hy
      | cons y ys =>
          cases i with
          | zero => simp
          | succ n =>
              simp only [List.zip_cons_cons, List.getElem?_cons_succ,
                List.getElem_cons_succ]
              exact ih (by simpa using hx) (by simpa using hy)

/-- C8: every successful extraction returns exactly one (date, value) pair
per time step of the grid (nothing dropped), where the i-th date is the
reference date parsed from the time axis's units string plus
`timedelta(days = offset_i)` for that step's offset, and the i-th value is
the raw cell value with a masked/invalid point carrying the numeric
value 0. -/
theorem extraction_dense_series_dates_and_masked_zero
    (vars : NetCDFVariables) (tLat tLon : ℚ) (la lo : ℕ)
    (out : List (PyDatetime × ℚ))
    (hfind : find_coordinates_indices vars tLat tLon = .ok (la, lo))
    (hex : extract_precipitation vars tLat tLon = .ok out) :
    out.length = vars.pr.cells.length ∧
    ∀ i, i < out.length →
      out[i]? = some
        (addTimedeltaDays (parse_reference_date vars.timeUnits)
          (vars.timeValues.getD i 0),
         (((vars.pr.cells.getD i []).getD la []).getD lo none).getD 0) := by
  unfold extract_precipitation at hex
  obtain ⟨p, hp, hex⟩ := exceptBind_ok hex
  rw [hfind] at hp
  have hp' : p = (la, lo) := by
    cases hp
    rfl
  subst hp'
  obtain ⟨data, hdata, hrel⟩ := exceptBind_ok hex
  unfold normalize_data_series at hdata
  split at hdata
  case isFalse => exact absurd hdata (by simp)
  case isTrue hbound =>
  have hdata' : data = (List.range vars.pr.cells.length).map fun t =>
      (((vars.pr.cells.getD t []).getD la []).getD lo none).getD 0 := by
    cases hdata
    rfl
  subst hdata'
  unfold relative_to_absolute_date at hrel
  dsimp only at hrel
  split at hrel
  case isFalse => exact absurd hrel (by simp)
  case isTrue hle =>
  have hout : out = (vars.timeValues.map
      (addTimedeltaDays (parse_reference_date vars.timeUnits))).zip
        ((List.range vars.pr.cells.length).map fun t =>
          (((vars.pr.cells.getD t []).getD la []).getD lo none).getD 0) := by
    cases hrel
    rfl
  simp only [List.length_map, List.length_range] at hle
  have hlen : out.length = vars.pr.cells.length := by
    rw [hout, List.length_zip]
    simp [hle]
  refine ⟨hlen, fun i hi => ?_⟩
  have hiN : i < vars.pr.cells.length := hlen ▸ hi
  have hiT : i < vars.timeValues.length := lt_of_lt_of_le hiN hle
  have hiT' : i < (vars.timeValues.map
      (addTimedeltaDays (parse_reference_date vars.timeUnits))).length := by
    simpa using hiT
  have hiD : i < ((List.range vars.pr.cells.length).map fun t =>
      (((vars.pr.cells.getD t []).getD la []).getD lo none).getD 0).length := by
    simpa using hiN
  rw [hout, getElem?_zip_of_lt hiT' hiD]
  congr 1
  refine Prod.ext ?_ ?_
  · show (vars.timeValues.map
        (addTimedeltaDays (parse_reference_date vars.timeUnits)))[i] = _
    rw [List.getElem_map]
    congr 1
    rw [List.getD_eq_getElem?_getD, List.getElem?_eq_getElem hiT]
    rfl
  · show ((List.range vars.pr.cells.length).map fun t =>
        (((vars.pr.cells.getD t []).getD la []).getD lo none).getD 0)[i] = _
    rw [List.getElem_map]
    simp [List.getElem_range]

/-- C8, witness: extraction from the concrete grid `varsW` (two time steps,
the second masked) yields the dense two-point series `outW` with the masked
point carrying 0 and both dates derived from the parsed reference date. -/
theorem extraction_dense_series_dates_and_masked_zero_witness :
    outW.length = varsW.pr.cells.length ∧
    ∀ i, i < outW.length →
      outW[i]? = some
        (addTimedeltaDays (parse_reference_date varsW.timeUnits)
          (varsW.timeValues.getD i 0),
         (((varsW.pr.cells.getD i []).getD 0 []).getD 0 none).getD 0) :=
  extraction_dense_series_dates_and_masked_zero varsW 1 2 0 0 outW
    (by with_unfolding_all rfl) (by with_unfolding_all rfl)

/-- Writing a file and reading the same path back yields the content. -/
theorem fsLookup_write_self (fs : FS) (p : String) (c : FileContent) :
    fsLookup (fsWrite fs p c) p = some c := by
  simp [fsLookup, fsWrite, List.find?]

/-- C9: for every filesystem and (model, scenario) pair, dumping a non-empty
recovery buffer and then validating and reading the snapshot back
reproduces exactly the buffered city map. -/
theorem recovery_snapshot_round_trip (fs : FS) (model scenario : String)
    (rd : RecoveryData) (h : rd ≠ []) :
    validate_recovery_path (dump_recovery_data fs model scenario rd)
        model scenario
      = some (recoveryFilePath model scenario) ∧
    recover_data_from_file (dump_recovery_data fs model scenario rd)
      (recoveryFilePath model scenario) = .ok rd := by
  have hne : rd.isEmpty = false := by
    cases rd with
    | nil => exact absurd rfl h
    | cons a l => rfl
  unfold dump_recovery_data
  rw [hne]
  simp only [Bool.false_eq_true, if_false]
  unfold fsReplace
  rw [fsLookup_write_self]
  rw [validate_recovery_path, recover_data_from_file, fsLookup_write_self]
  simp

/-- C9, witness: the concrete one-city buffer `rdW` round-trips through the
snapshot of the pair ("m", "s"). -/
theorem recovery_snapshot_round_trip_witness :
    validate_recovery_path (dump_recovery_data fsW "m" "s" rdW) "m" "s"
      = some (recoveryFilePath "m" "s") ∧
    recover_data_from_file (dump_recovery_data fsW "m" "s" rdW)
      (recoveryFilePath "m" "s") = .ok rdW :=
  recovery_snapshot_round_trip fsW "m" "s" rdW (by unfold rdW; simp)

/-- C10: dumping an empty recovery buffer writes nothing — the filesystem is
returned unchanged, so in particular any stale snapshot already stored for
the pair is neither overwritten nor removed. -/
theorem empty_buffer_dump_leaves_fs_unchanged (fs : FS) (model scenario : String) :
    dump_recovery_data fs model scenario [] = fs ∧
    fsLookup (dump_recovery_data fs model scenario [])
        (recoveryFilePath model scenario)
      = fsLookup fs (recoveryFilePath model scenario) :=
  ⟨rfl, rfl⟩
